import Mathlib

/-! ImageEditor-Qt: the edit session of the image viewer.

A shallow embedding of `src/imageviewer.cpp` (class `ImageViewer`): the crop
selection rectangle, the filter slots, the effect dialog protocol, the undo
history and the action enablement flags, followed by the properties that were
checked against them.

Conventions of the embedding:

* a C++ `int` is an `Int` (the code only compares, swaps, and adds small
  constants to such values);
* a `QImage` is an `Option Img`: `none` is the null image (`isNull()`), `some`
  carries the pixel data, whose type `Img` is left abstract;
* calls into OpenCV and into the Qt image classes are fields of `CvLib`, fixed
  pure functions of their arguments;
* `scaleFactor` is an exact rational.
-/

namespace ImageEditor

/-! ## Selection rectangle (`ImageViewer::showSelectedArea`) -/

/-- A `QPoint`: integer coordinates. -/
structure QPoint where
  x : Int
  y : Int
deriving DecidableEq, Repr

/-- A `QRect` as built by `QRect(topLeft, bottomRight)`. -/
structure QRect where
  topLeft : QPoint
  bottomRight : QPoint
deriving DecidableEq, Repr

/-- Geometry of `imageLabel` read by `showSelectedArea`: `width()`, `height()`,
`x()` and `y()`. -/
structure LabelGeometry where
  width : Int
  height : Int
  x : Int
  y : Int
deriving DecidableEq, Repr

/-- Lines 263-277 of `showSelectedArea`: the `if / else if / else if` chain that
reorders the anchor `a` and the release point `b`. -/
def swapStep (a b : QPoint) : QPoint × QPoint :=
  if b.x < a.x ∧ b.y < a.y then
    (b, a)
  else if b.x < a.x then
    ({ a with x := b.x }, { b with x := a.x })
  else if b.y < a.y then
    ({ a with y := b.y }, { b with y := a.y })
  else
    (a, b)

/-- Lines 278-281 of `showSelectedArea`: the four clamping statements, in the
order of the source. -/
def clampStep (g : LabelGeometry) (p : QPoint × QPoint) : QPoint × QPoint :=
  let a := p.1
  let b := p.2
  let b := if b.x > g.width then { b with x := g.width - 1 } else b
  let b := if b.y > g.height then { b with y := g.height - 1 } else b
  let a := if a.x < g.x then { a with x := g.x } else a
  let a := if a.y < g.y then { a with y := g.y } else a
  (a, b)

/-- The rectangle `r` that `showSelectedArea` passes to `image.copy`. -/
def selectedRect (g : LabelGeometry) (a b : QPoint) : QRect :=
  let p := clampStep g (swapStep a b)
  { topLeft := p.1, bottomRight := p.2 }

/-! ## External collaborators -/

/-- A `QImage` value: `none` is the null image, `some i` an image with pixel
data `i`. -/
abbrev QImage (Img : Type) := Option Img

/-- The calls that `imageviewer.cpp` makes into OpenCV, into `Convert`
(`convert.h`) and into `QImage`. Each field is the value the call leaves in its
output argument, as a function of its inputs. -/
structure CvLib (Img Mat : Type) where
  /-- Source: `Convert::QImageToCvMat(inImage)` -/
  QImageToCvMat : QImage Img → Mat
  /-- Source: `Convert::cvMatToQImage(inMat)` -/
  cvMatToQImage : Mat → QImage Img
  /-- The default-constructed `cv::Mat dst;` -/
  emptyMat : Mat
  /-- The `dst` of `blur(src, dst, cv::Size(i, i), cv::Point(-1,-1))` -/
  blur : Mat → Int → Mat
  /-- The `dst` of `GaussianBlur(src, dst, cv::Size(i, i), 0, 0)` -/
  GaussianBlur : Mat → Int → Mat
  /-- The `dst` of `medianBlur(src, dst, i)` -/
  medianBlur : Mat → Int → Mat
  /-- The `dst` of `bilateralFilter(src, dst, d, sigmaColor, sigmaSpace)` -/
  bilateralFilter : Mat → Int → Int → Int → Mat
  /-- The `dst` of `cv::transform(src, dst, kern)` with the sepia kernel of
  `showSepia` -/
  transformSepia : Mat → Mat
  /-- The `temp` of `cvtColor(dst, temp, CV_BGR2RGB)` -/
  cvtColorBGR2RGB : Mat → Mat
  /-- The `QImage dest(temp.data, temp.cols, temp.rows, temp.step,
  QImage::Format_RGB888)` built in `showSepia` -/
  wrapRGB888 : Mat → QImage Img
  /-- The `new_image` left by the pixel loop of `brightnessAlgorithm`, whose
  body is `cv::saturate_cast<uchar>(alpha * v + beta)` in `double` arithmetic -/
  brightnessLoop : Mat → Int → Mat
  /-- The `dst` of `showHistogramEqualization`: `cvtColor` to YCrCb, `split`,
  `equalizeHist` on channel 0, `merge`, `cvtColor` back -/
  equalizeLuma : Mat → Mat
  /-- Source: `QImage::copy(r)` -/
  copy : QImage Img → QRect → QImage Img
  /-- Source: `colorSpace().isValid()` of a non-null image -/
  colorSpaceIsValid : Img → Bool
  /-- Source: `convertToColorSpace(QColorSpace::SRgb)` on a non-null image -/
  convertToSRgb : Img → Img

/-! ## Undo history -/

/-- Modelled from the spec: `commands.h` (class `AddCommand`) is not among the
sources. An Edit Command is an immutable record of one accepted transition with
`before` and `after` images; the constructor call in `dialogIsFinished` is
`AddCommand(imageAfterEffect, image, this)`, so the first argument is `after` and
the second is `before`. -/
structure AddCommand (Img : Type) where
  after : QImage Img
  before : QImage Img

/-- Modelled from the spec: the History behind `QUndoStack`, an ordered sequence
of Edit Commands with a single cursor `index` separating done from undone
commands. -/
structure QUndoStack (Img : Type) where
  commands : List (AddCommand Img)
  index : Nat

/-! ## Widgets -/

/-- The `enabled` and `checked` properties of a `QAction`. -/
structure QAction where
  enabled : Bool
  checked : Bool
deriving DecidableEq, Repr

/-- Source: `QAction::setEnabled` -/
def QAction.setEnabled (a : QAction) (b : Bool) : QAction := { a with enabled := b }

/-- The slots of `ImageViewer` that are connected to `w->slider`'s
`valueChanged(int)`. -/
inductive SliderSlot where
  | brightnessAlgorithm
  | homogeneousAlgorithm
  | gaussianAlgorithm
  | medianAlgorithm
  | bilateralAlgorithm
deriving DecidableEq, Repr

/-- Modelled from the spec: `effectwindow.h` is not among the sources. The
preview dialog `w` as `imageviewer.cpp` uses it: the two images given to its
constructor (`imageAfter` is assigned by `changeImage`), whether it is shown,
the enabled flag of its `slider`, and the slots connected to the slider. -/
structure effectwindow (Img : Type) where
  imageBefore : QImage Img
  imageAfter : QImage Img
  visible : Bool
  sliderEnabled : Bool
  sliderSlots : List SliderSlot

/-- The dialog built by `new effectwindow(image, imageAfterEffect)`: not shown
yet, slider enabled (the default of a widget), nothing connected to it. -/
def effectwindow.create {Img : Type} (imageBefore imageAfter : QImage Img) :
    effectwindow Img :=
  { imageBefore := imageBefore, imageAfter := imageAfter, visible := false,
    sliderEnabled := true, sliderSlots := [] }

/-- The members of `ImageViewer` that the slots read and write. -/
structure ImageViewer (Img : Type) where
  image : QImage Img
  imageAfterEffect : QImage Img
  /-- The pointer `w`; `none` until `setImage` creates the dialog. -/
  w : Option (effectwindow Img)
  undoStack : QUndoStack Img
  scaleFactor : ℚ
  /-- Source: `imageLabel->cropState` -/
  cropState : Bool
  /-- Source: `scrollArea->widgetResizable()` -/
  widgetResizable : Bool
  /-- Source: `scrollArea->isVisible()` -/
  scrollAreaVisible : Bool
  saveAsAct : QAction
  copyAct : QAction
  paintAct : QAction
  brightnessAct : QAction
  histAct : QAction
  sepiaAct : QAction
  blurHAct : QAction
  blurGAct : QAction
  blurMAct : QAction
  blurBAct : QAction
  zoomInAct : QAction
  zoomOutAct : QAction
  normalSizeAct : QAction
  fitToWindowAct : QAction
  cropAct : QAction

namespace ImageViewer

variable {Img Mat : Type}

/-- The state left by the constructor: `createActions` disables every action it
stores, nothing is checked, the undo stack is empty, no image is loaded. -/
def create : ImageViewer Img :=
  { image := none, imageAfterEffect := none, w := none,
    undoStack := { commands := [], index := 0 },
    scaleFactor := 1, cropState := false, widgetResizable := false,
    scrollAreaVisible := false,
    saveAsAct := ⟨false, false⟩, copyAct := ⟨false, false⟩, paintAct := ⟨false, false⟩,
    brightnessAct := ⟨false, false⟩, histAct := ⟨false, false⟩,
    sepiaAct := ⟨false, false⟩, blurHAct := ⟨false, false⟩, blurGAct := ⟨false, false⟩,
    blurMAct := ⟨false, false⟩, blurBAct := ⟨false, false⟩, zoomInAct := ⟨false, false⟩,
    zoomOutAct := ⟨false, false⟩, normalSizeAct := ⟨false, false⟩,
    fitToWindowAct := ⟨false, false⟩, cropAct := ⟨false, false⟩ }

/-- Apply `f` to the dialog behind the pointer `w`. -/
def onDialog (f : effectwindow Img → effectwindow Img) (v : ImageViewer Img) :
    ImageViewer Img :=
  { v with w := v.w.map f }

/-- Source: `w->show()` -/
def showDialog (v : ImageViewer Img) : ImageViewer Img :=
  onDialog (fun d => { d with visible := true }) v

/-- Source: `w->slider->setEnabled(b)` -/
def setSliderEnabled (b : Bool) (v : ImageViewer Img) : ImageViewer Img :=
  onDialog (fun d => { d with sliderEnabled := b }) v

/-- Source: `QObject::connect(w->slider, SIGNAL(valueChanged(int)), this, SLOT(slot(int)))`:
connections accumulate, in connection order. -/
def connectSlider (slot : SliderSlot) (v : ImageViewer Img) : ImageViewer Img :=
  onDialog (fun d => { d with sliderSlots := d.sliderSlots ++ [slot] }) v

/-- Source: `ImageViewer::changeImage` -/
def changeImage (newImage : QImage Img) (v : ImageViewer Img) : ImageViewer Img :=
  onDialog (fun d => { d with imageAfter := newImage }) v

/-- Source: `ImageViewer::updateActions`, statement by statement. -/
def updateActions (v : ImageViewer Img) : ImageViewer Img :=
  let v := { v with saveAsAct := v.saveAsAct.setEnabled (!v.image.isNone) }
  let v := { v with copyAct := v.copyAct.setEnabled (!v.image.isNone) }
  let v := { v with brightnessAct := v.brightnessAct.setEnabled (!v.image.isNone) }
  let v := { v with sepiaAct := v.sepiaAct.setEnabled (!v.image.isNone) }
  let v := { v with histAct := v.histAct.setEnabled (!v.image.isNone) }
  let v := { v with blurHAct := v.blurHAct.setEnabled (!v.image.isNone) }
  let v := { v with blurGAct := v.blurGAct.setEnabled (!v.image.isNone) }
  let v := { v with blurMAct := v.blurMAct.setEnabled (!v.image.isNone) }
  let v := { v with blurBAct := v.blurBAct.setEnabled (!v.image.isNone) }
  let v := { v with paintAct := v.paintAct.setEnabled (!v.image.isNone) }
  let v := { v with zoomInAct := v.zoomInAct.setEnabled (!v.fitToWindowAct.checked) }
  let v := { v with zoomOutAct := v.zoomOutAct.setEnabled (!v.fitToWindowAct.checked) }
  let v := { v with normalSizeAct := v.normalSizeAct.setEnabled (!v.fitToWindowAct.checked) }
  let v := { v with cropAct := v.cropAct.setEnabled (!v.fitToWindowAct.checked) }
  let v := { v with zoomInAct :=
    v.zoomInAct.setEnabled (!v.cropAct.checked && !v.fitToWindowAct.checked) }
  let v := { v with zoomOutAct :=
    v.zoomOutAct.setEnabled (!v.cropAct.checked && !v.fitToWindowAct.checked) }
  let v := { v with fitToWindowAct := v.fitToWindowAct.setEnabled (!v.cropAct.checked) }
  { v with normalSizeAct :=
    v.normalSizeAct.setEnabled (!v.cropAct.checked && !v.fitToWindowAct.checked) }

/-- Source: `ImageViewer::setImage` -/
def setImage (lib : CvLib Img Mat) (newImage : QImage Img) (v : ImageViewer Img) :
    ImageViewer Img :=
  let v := { v with image := newImage }
  let v := { v with imageAfterEffect := v.image }
  let v := { v with w := some (effectwindow.create v.image v.imageAfterEffect) }
  let v := { v with image :=
    match v.image with
    | some i => if lib.colorSpaceIsValid i then some (lib.convertToSRgb i) else some i
    | none => none }
  let v := { v with scaleFactor := 1 }
  let v := { v with scrollAreaVisible := true }
  let v := { v with fitToWindowAct := v.fitToWindowAct.setEnabled true }
  let v := { v with cropAct := v.cropAct.setEnabled true }
  updateActions v

/-- Source: `ImageViewer::normalSize` -/
def normalSize (v : ImageViewer Img) : ImageViewer Img :=
  { v with scaleFactor := 1 }

/-- Source: `ImageViewer::fitToWindow` -/
def fitToWindow (v : ImageViewer Img) : ImageViewer Img :=
  let fit := v.fitToWindowAct.checked
  let v := { v with widgetResizable := fit }
  let v := if !fit then normalSize v else v
  updateActions v

/-- Source: `ImageViewer::scaleImage` -/
def scaleImage (factor : ℚ) (v : ImageViewer Img) : ImageViewer Img :=
  let v := { v with scaleFactor := v.scaleFactor * factor }
  let v := { v with zoomInAct := v.zoomInAct.setEnabled (decide (v.scaleFactor < 3)) }
  { v with zoomOutAct := v.zoomOutAct.setEnabled (decide (v.scaleFactor > 333 / 1000)) }

/-- Source: `ImageViewer::zoomIn` -/
def zoomIn (v : ImageViewer Img) : ImageViewer Img := scaleImage (5 / 4) v

/-- Source: `ImageViewer::zoomOut` -/
def zoomOut (v : ImageViewer Img) : ImageViewer Img := scaleImage (4 / 5) v

/-- Source: `ImageViewer::crop` -/
def crop (v : ImageViewer Img) : ImageViewer Img :=
  updateActions { v with cropState := v.cropAct.checked }

/-! ### Undo history operations -/

/-- Modelled from the spec: `AddCommand::redo` (`commands.h` is absent). Applying
the command sets the current image to `after`. -/
def redoCommand (c : AddCommand Img) (v : ImageViewer Img) : ImageViewer Img :=
  { v with image := c.after }

/-- Modelled from the spec: `AddCommand::undo` (`commands.h` is absent).
Reversing the command sets the current image to `before`. -/
def undoCommand (c : AddCommand Img) (v : ImageViewer Img) : ImageViewer Img :=
  { v with image := c.before }

/-- Modelled from the spec: `undoStack->push(command)` appends `command` at the
cursor, truncates any entries after the cursor, advances the cursor past the new
entry, and sets the current image to `command.after`. -/
def push (c : AddCommand Img) (v : ImageViewer Img) : ImageViewer Img :=
  redoCommand c
    { v with undoStack :=
      { commands := v.undoStack.commands.take v.undoStack.index ++ [c],
        index := v.undoStack.index + 1 } }

/-- Modelled from the spec: `undo()` is a no-op if the cursor is at the start;
otherwise it applies the command at `cursor - 1` in reverse and moves the cursor
back one. -/
def undo (v : ImageViewer Img) : ImageViewer Img :=
  if v.undoStack.index = 0 then v
  else
    match v.undoStack.commands[v.undoStack.index - 1]? with
    | some c =>
      undoCommand c { v with undoStack := { v.undoStack with index := v.undoStack.index - 1 } }
    | none => v

/-- Modelled from the spec: `redo()` is a no-op if the cursor is at the end;
otherwise it applies the command at `cursor` forward and moves the cursor forward
one. -/
def redo (v : ImageViewer Img) : ImageViewer Img :=
  match v.undoStack.commands[v.undoStack.index]? with
  | some c =>
    redoCommand c { v with undoStack := { v.undoStack with index := v.undoStack.index + 1 } }
  | none => v

/-! ### Effect dialog slots -/

/-- The value of `QDialog::Accepted`. -/
def Accepted : Int := 1

/-- The value of `QDialog::Rejected`. -/
def Rejected : Int := 0

/-- Source: `ImageViewer::showSelectedArea`; `beginPt` and `endPt` are `imageLabel->begin`
and `imageLabel->end`, `g` is the geometry of `imageLabel`. -/
def showSelectedArea (lib : CvLib Img Mat) (g : LabelGeometry) (beginPt endPt : QPoint)
    (v : ImageViewer Img) : ImageViewer Img :=
  let r := selectedRect g beginPt endPt
  let v := { v with imageAfterEffect := lib.copy v.image r }
  let v := showDialog v
  let v := changeImage v.imageAfterEffect v
  setSliderEnabled false v

/-- Source: `ImageViewer::dialogIsFinished` -/
def dialogIsFinished (result : Int) (v : ImageViewer Img) : ImageViewer Img :=
  if result = Accepted then
    push { after := v.imageAfterEffect, before := v.image } v
  else
    setSliderEnabled true v

/-- Source: `ImageViewer::showBrightnessEffect` -/
def showBrightnessEffect (v : ImageViewer Img) : ImageViewer Img :=
  let v := changeImage v.image v
  let v := connectSlider SliderSlot.brightnessAlgorithm v
  showDialog v

/-- Source: `ImageViewer::showSepia` -/
def showSepia (lib : CvLib Img Mat) (v : ImageViewer Img) : ImageViewer Img :=
  let src := lib.QImageToCvMat v.image
  let dst := lib.transformSepia src
  let temp := lib.cvtColorBGR2RGB dst
  let dest := lib.wrapRGB888 temp
  let v := { v with imageAfterEffect := dest }
  let v := changeImage v.imageAfterEffect v
  let v := setSliderEnabled false v
  showDialog v

/-- Source: `ImageViewer::brightnessAlgorithm` -/
def brightnessAlgorithm (lib : CvLib Img Mat) (beta : Int) (v : ImageViewer Img) :
    ImageViewer Img :=
  let main_image := lib.QImageToCvMat v.image
  let new_image := lib.brightnessLoop main_image beta
  let v := { v with imageAfterEffect := lib.cvMatToQImage new_image }
  changeImage v.imageAfterEffect v

/-- The loop `for (int i = start; i < MAX_KERNEL_LENGTH; i = i + 2) body(i);` of the
four blur slots, where `call i` is the `dst` that the filter call of the body
leaves for kernel size `i`; the result is the final `dst`. -/
def blurLoop (call : Int → Mat) (MAX_KERNEL_LENGTH : Int) (i : Int) (dst : Mat) : Mat :=
  if i < MAX_KERNEL_LENGTH then
    blurLoop call MAX_KERNEL_LENGTH (i + 2) (call i)
  else dst
termination_by (MAX_KERNEL_LENGTH - i).toNat
decreasing_by omega

/-- Source: `ImageViewer::showHomogeneousEffect` -/
def showHomogeneousEffect (v : ImageViewer Img) : ImageViewer Img :=
  let v := changeImage v.image v
  let v := connectSlider SliderSlot.homogeneousAlgorithm v
  showDialog v

/-- Source: `ImageViewer::homogeneousAlgorithm` -/
def homogeneousAlgorithm (lib : CvLib Img Mat) (m : Int) (v : ImageViewer Img) :
    ImageViewer Img :=
  let m := if m < 2 then 2 else m
  let MAX_KERNEL_LENGTH := m
  let src := lib.QImageToCvMat v.image
  let dst := blurLoop (fun i => lib.blur src i) MAX_KERNEL_LENGTH 1 lib.emptyMat
  let v := { v with imageAfterEffect := lib.cvMatToQImage dst }
  changeImage v.imageAfterEffect v

/-- Source: `ImageViewer::showGaussianEffect` -/
def showGaussianEffect (v : ImageViewer Img) : ImageViewer Img :=
  let v := changeImage v.image v
  let v := connectSlider SliderSlot.gaussianAlgorithm v
  showDialog v

/-- Source: `ImageViewer::gaussianAlgorithm` -/
def gaussianAlgorithm (lib : CvLib Img Mat) (m : Int) (v : ImageViewer Img) :
    ImageViewer Img :=
  let m := if m < 2 then 2 else m
  let MAX_KERNEL_LENGTH := m
  let src := lib.QImageToCvMat v.image
  let dst := blurLoop (fun i => lib.GaussianBlur src i) MAX_KERNEL_LENGTH 1 lib.emptyMat
  let v := { v with imageAfterEffect := lib.cvMatToQImage dst }
  changeImage v.imageAfterEffect v

/-- Source: `ImageViewer::showMedianEffect` -/
def showMedianEffect (v : ImageViewer Img) : ImageViewer Img :=
  let v := changeImage v.image v
  let v := connectSlider SliderSlot.medianAlgorithm v
  showDialog v

/-- Source: `ImageViewer::medianAlgorithm` -/
def medianAlgorithm (lib : CvLib Img Mat) (m : Int) (v : ImageViewer Img) :
    ImageViewer Img :=
  let m := if m < 2 then 2 else m
  let MAX_KERNEL_LENGTH := m
  let src := lib.QImageToCvMat v.image
  let dst := blurLoop (fun i => lib.medianBlur src i) MAX_KERNEL_LENGTH 1 lib.emptyMat
  let v := { v with imageAfterEffect := lib.cvMatToQImage dst }
  changeImage v.imageAfterEffect v

/-- Source: `ImageViewer::showBilateralEffect` -/
def showBilateralEffect (v : ImageViewer Img) : ImageViewer Img :=
  let v := changeImage v.image v
  let v := connectSlider SliderSlot.bilateralAlgorithm v
  showDialog v

/-- Source: `ImageViewer::bilateralAlgorithm`; `i/2` is the truncating division of C++. -/
def bilateralAlgorithm (lib : CvLib Img Mat) (m : Int) (v : ImageViewer Img) :
    ImageViewer Img :=
  let m := if m < 2 then 2 else m
  let MAX_KERNEL_LENGTH := m
  let src := lib.QImageToCvMat v.image
  let dst := blurLoop (fun i => lib.bilateralFilter src i (i * 2) (Int.tdiv i 2))
    MAX_KERNEL_LENGTH 1 lib.emptyMat
  let v := { v with imageAfterEffect := lib.cvMatToQImage dst }
  changeImage v.imageAfterEffect v

/-- Source: `ImageViewer::showHistogramEqualization`; the histogram dialog `hw` is a
separate window whose `finished(int)` is connected to `dialogIsFinished`. -/
def showHistogramEqualization (lib : CvLib Img Mat) (v : ImageViewer Img) :
    ImageViewer Img :=
  let src := lib.QImageToCvMat v.image
  let dst := lib.equalizeLuma src
  { v with imageAfterEffect := lib.cvMatToQImage dst }

/-- The slot behind a slider connection. -/
def runSlot (lib : CvLib Img Mat) (value : Int) (v : ImageViewer Img) :
    SliderSlot → ImageViewer Img
  | SliderSlot.brightnessAlgorithm => brightnessAlgorithm lib value v
  | SliderSlot.homogeneousAlgorithm => homogeneousAlgorithm lib value v
  | SliderSlot.gaussianAlgorithm => gaussianAlgorithm lib value v
  | SliderSlot.medianAlgorithm => medianAlgorithm lib value v
  | SliderSlot.bilateralAlgorithm => bilateralAlgorithm lib value v

/-- The signal `valueChanged(value)` of `w->slider`: every connected slot runs, in
connection order. -/
def valueChanged (lib : CvLib Img Mat) (value : Int) (v : ImageViewer Img) :
    ImageViewer Img :=
  match v.w with
  | some d => d.sliderSlots.foldl (runSlot lib value) v
  | none => v

end ImageViewer

/-! ## The viewer as a transition system -/

/-- Source: `QAction::toggle`, what a click does to a checkable action before its
`triggered` signal runs the slot. -/
def QAction.toggle (a : QAction) : QAction := { a with checked := !a.checked }

/-- What can happen to the viewer: a menu action is triggered, a dialog reports
`finished`, the slider moves, the rubber band reports a selection, the paint
window writes its result. -/
inductive Event (Img : Type) where
  /-- The slot `open` or `paste` obtained a non-null image and called `setImage` -/
  | imageObtained (newImage : Img)
  | fitToWindowTriggered
  | cropTriggered
  | zoomInTriggered
  | zoomOutTriggered
  | normalSizeTriggered
  | brightnessTriggered
  | sepiaTriggered
  | histTriggered
  | blurHTriggered
  | blurGTriggered
  | blurMTriggered
  | blurBTriggered
  /-- the paint window, given `&imageAfterEffect`, stores an image there -/
  | paintWindowWrote (result : QImage Img)
  /-- Signal `valueChanged(value)` of `w->slider` -/
  | sliderMoved (value : Int)
  /-- Signal `areaSelected()` of `imageLabel` -/
  | areaSelected (g : LabelGeometry) (beginPt endPt : QPoint)
  /-- Signal `finished(result)` of the effect dialog `w`, which hides it first -/
  | effectDialogFinished (result : Int)
  /-- Signal `finished(result)` of the histogram dialog or of the paint window -/
  | otherDialogFinished (result : Int)
  | undoTriggered
  | redoTriggered

/-- Events that neither load an image nor walk the undo history. -/
def Event.isEdit {Img : Type} : Event Img → Bool
  | Event.imageObtained _ => false
  | Event.undoTriggered => false
  | Event.redoTriggered => false
  | _ => true

namespace ImageViewer

variable {Img Mat : Type}

/-- Whether the toolkit can deliver the event: an action must be enabled to be
triggered, and the dialogs, the slider and the selection exist only once an
image was set. -/
def accepts (v : ImageViewer Img) : Event Img → Bool
  | Event.imageObtained _ => true
  | Event.fitToWindowTriggered => v.fitToWindowAct.enabled
  | Event.cropTriggered => v.cropAct.enabled
  | Event.zoomInTriggered => v.zoomInAct.enabled
  | Event.zoomOutTriggered => v.zoomOutAct.enabled
  | Event.normalSizeTriggered => v.normalSizeAct.enabled
  | Event.brightnessTriggered => v.brightnessAct.enabled
  | Event.sepiaTriggered => v.sepiaAct.enabled
  | Event.histTriggered => v.histAct.enabled
  | Event.blurHTriggered => v.blurHAct.enabled
  | Event.blurGTriggered => v.blurGAct.enabled
  | Event.blurMTriggered => v.blurMAct.enabled
  | Event.blurBTriggered => v.blurBAct.enabled
  | Event.paintWindowWrote _ => v.paintAct.enabled
  | Event.sliderMoved _ => v.w.isSome
  | Event.areaSelected _ _ _ => v.w.isSome
  | Event.effectDialogFinished _ => v.w.isSome
  | Event.otherDialogFinished _ => v.w.isSome
  | Event.undoTriggered => true
  | Event.redoTriggered => true

/-- The slot that the event runs. -/
def fire (lib : CvLib Img Mat) (v : ImageViewer Img) : Event Img → ImageViewer Img
  | Event.imageObtained newImage => setImage lib (some newImage) v
  | Event.fitToWindowTriggered =>
    fitToWindow { v with fitToWindowAct := v.fitToWindowAct.toggle }
  | Event.cropTriggered => crop { v with cropAct := v.cropAct.toggle }
  | Event.zoomInTriggered => zoomIn v
  | Event.zoomOutTriggered => zoomOut v
  | Event.normalSizeTriggered => normalSize v
  | Event.brightnessTriggered => showBrightnessEffect v
  | Event.sepiaTriggered => showSepia lib v
  | Event.histTriggered => showHistogramEqualization lib v
  | Event.blurHTriggered => showHomogeneousEffect v
  | Event.blurGTriggered => showGaussianEffect v
  | Event.blurMTriggered => showMedianEffect v
  | Event.blurBTriggered => showBilateralEffect v
  | Event.paintWindowWrote result => { v with imageAfterEffect := result }
  | Event.sliderMoved value => valueChanged lib value v
  | Event.areaSelected g beginPt endPt => showSelectedArea lib g beginPt endPt v
  | Event.effectDialogFinished result =>
    dialogIsFinished result (onDialog (fun d => { d with visible := false }) v)
  | Event.otherDialogFinished result => dialogIsFinished result v
  | Event.undoTriggered => undo v
  | Event.redoTriggered => redo v

/-- Run a list of events from `v`; `none` if one of them cannot be delivered. -/
def run (lib : CvLib Img Mat) : List (Event Img) → ImageViewer Img → Option (ImageViewer Img)
  | [], v => some v
  | e :: es, v => if accepts v e then run lib es (fire lib v e) else none

/-- The states the viewer can be in: those that some deliverable sequence of
events produces from the constructor's state. -/
inductive Reachable (lib : CvLib Img Mat) : ImageViewer Img → Prop where
  | create : Reachable lib create
  | step {v : ImageViewer Img} (e : Event Img) :
      Reachable lib v → accepts v e = true → Reachable lib (fire lib v e)

/-- Events whose slot calls into the undo stack (`push`, `undo`, `redo`), the
part of the viewer whose code is not among the sources. -/
def usesUndoStack : Event Img → Bool
  | Event.effectDialogFinished result => decide (result = Accepted)
  | Event.otherDialogFinished result => decide (result = Accepted)
  | Event.undoTriggered => true
  | Event.redoTriggered => true
  | _ => false

/-- The states of one editing session: an image was obtained on a fresh viewer,
then previews were opened, adjusted, accepted and cancelled, without loading
another image and without undo or redo. -/
inductive EditSession (lib : CvLib Img Mat) : ImageViewer Img → Prop where
  | start (newImage : Img) : EditSession lib (setImage lib (some newImage) create)
  | step {v : ImageViewer Img} (e : Event Img) :
      EditSession lib v → accepts v e = true → e.isEdit = true →
      EditSession lib (fire lib v e)

/-- The state in which the matrix `dst` has become the preview: its image is the
working image `imageAfterEffect` and is the one shown in the dialog. -/
def previewing (lib : CvLib Img Mat) (dst : Mat) (v : ImageViewer Img) : ImageViewer Img :=
  changeImage (lib.cvMatToQImage dst) { v with imageAfterEffect := lib.cvMatToQImage dst }

/-- The part of the state that the action flags are related to: whether the
dialog exists, whether the image is null, and the fifteen actions. -/
def actionView (v : ImageViewer Img) : Bool × Bool × List QAction :=
  (v.w.isSome, v.image.isNone,
   [v.saveAsAct, v.copyAct, v.paintAct, v.brightnessAct, v.histAct, v.sepiaAct, v.blurHAct,
    v.blurGAct, v.blurMAct, v.blurBAct, v.zoomInAct, v.zoomOutAct, v.normalSizeAct,
    v.fitToWindowAct, v.cropAct])

/-- The states reached through the slots that `imageviewer.cpp` defines in full:
loading, the view actions, opening, adjusting and cancelling previews. Accepting
a preview, undo and redo hand over to the undo stack and its commands, which are
not among the sources, and are left out. -/
inductive ReachableInSource (lib : CvLib Img Mat) : ImageViewer Img → Prop where
  | create : ReachableInSource lib create
  | step {v : ImageViewer Img} (e : Event Img) :
      ReachableInSource lib v → accepts v e = true → usesUndoStack e = false →
      ReachableInSource lib (fire lib v e)

/-- The two checkable actions, Fit to Window and Crop Mode. -/
def modeView (v : ImageViewer Img) : QAction × QAction :=
  (v.fitToWindowAct, v.cropAct)

/-- Crop Mode and Fit to Window are not both checked, and each of them can be
toggled (is enabled) only while the other is unchecked. -/
def ModesExclusive (v : ImageViewer Img) : Prop :=
  ¬ (v.cropAct.checked = true ∧ v.fitToWindowAct.checked = true) ∧
  (v.cropAct.enabled = true → v.fitToWindowAct.checked = false) ∧
  (v.fitToWindowAct.enabled = true → v.cropAct.checked = false)

/-- The scale factor together with the Zoom In and Zoom Out actions. -/
def zoomView (v : ImageViewer Img) : ℚ × QAction × QAction :=
  (v.scaleFactor, v.zoomInAct, v.zoomOutAct)

/-- The zoom level is within the bounds that the guards of `scaleImage` aim at:
the scale factor lies strictly between 0.333 * 0.8 and 3.0 * 1.25, Zoom In is
enabled only below 3.0 and Zoom Out only above 0.333. -/
def ZoomBounded (v : ImageViewer Img) : Prop :=
  (333 / 1250 < v.scaleFactor ∧ v.scaleFactor < 15 / 4) ∧
  (v.zoomInAct.enabled = true → v.scaleFactor < 3) ∧
  (v.zoomOutAct.enabled = true → 333 / 1000 < v.scaleFactor)

/-- The states that are reached without Crop Mode ever being triggered. -/
inductive ReachableWithoutCrop (lib : CvLib Img Mat) : ImageViewer Img → Prop where
  | create : ReachableWithoutCrop lib create
  | step {v : ImageViewer Img} (e : Event Img) :
      ReachableWithoutCrop lib v → accepts v e = true → e ≠ Event.cropTriggered →
      ReachableWithoutCrop lib (fire lib v e)

end ImageViewer

/-! ## A recording library

An instance of `CvLib` over integers in which every blur returns the kernel size
it was called with, so that the preview shows which call produced it; the other
filters are simple arithmetic. -/

/-- Images and matrices are integers; a blur answers its kernel size, sepia
adds 1000, brightness adds `beta`, and `copy` answers the null image for a
rectangle whose second corner lies before its first. -/
def recordingLib : CvLib Int Int :=
  { QImageToCvMat := fun q => q.getD 0
    cvMatToQImage := fun m => some m
    emptyMat := 0
    blur := fun _ k => k
    GaussianBlur := fun _ k => k
    medianBlur := fun _ k => k
    bilateralFilter := fun _ d _ _ => d
    transformSepia := fun m => m + 1000
    cvtColorBGR2RGB := fun m => m
    wrapRGB888 := fun m => some m
    brightnessLoop := fun m beta => m + beta
    equalizeLuma := fun m => m
    copy := fun q r =>
      if r.bottomRight.x < r.topLeft.x ∨ r.bottomRight.y < r.topLeft.y then none else q
    colorSpaceIsValid := fun _ => false
    convertToSRgb := fun i => i }

/-! # Properties -/

section Properties

open ImageViewer

variable {Img Mat : Type}

/-! ## Selection rectangle -/

/-- The `if / else if / else if` chain computes the componentwise minimum and
maximum of the two points. -/
theorem swapStep_eq_min_max (a b : QPoint) :
    swapStep a b = (⟨min a.x b.x, min a.y b.y⟩, ⟨max a.x b.x, max a.y b.y⟩) := by
  obtain ⟨ax, ay⟩ := a
  obtain ⟨bx, by_⟩ := b
  simp only [swapStep]
  split_ifs with h1 h2 h3 <;> simp only [Prod.mk.injEq, QPoint.mk.injEq] <;>
    refine ⟨⟨?_, ?_⟩, ⟨?_, ?_⟩⟩ <;> omega

/-- C1: for every anchor `a` and release point `b`, the swap step of
`showSelectedArea` yields the componentwise minimum as first point and the
componentwise maximum as second point, so the first point is left of and above
the second; anchor (50,10) and release (10,50) give (10,10)-(50,50). -/
theorem swapStep_normalizes (a b : QPoint) :
    swapStep a b = (⟨min a.x b.x, min a.y b.y⟩, ⟨max a.x b.x, max a.y b.y⟩) ∧
    (swapStep a b).1.x ≤ (swapStep a b).2.x ∧
    (swapStep a b).1.y ≤ (swapStep a b).2.y ∧
    swapStep ⟨50, 10⟩ ⟨10, 50⟩ = (⟨10, 10⟩, ⟨50, 50⟩) := by
  have key := swapStep_eq_min_max a b
  refine ⟨key, ?_, ?_, by decide⟩
  · rw [key]; exact min_le_iff.mpr (Or.inl (le_max_left _ _))
  · rw [key]; exact min_le_iff.mpr (Or.inl (le_max_left _ _))

/-- C2 (as stated, refuted): on a 100x100 label at the origin, anchor (-5,5) and
release (30,200) give the rectangle (0,5)-(30,99), not (0,5)-(29,99): the
release x coordinate 30 lies inside the label and is left alone. -/
theorem selectedRect_example_not_29 :
    selectedRect ⟨100, 100, 0, 0⟩ ⟨-5, 5⟩ ⟨30, 200⟩ = ⟨⟨0, 5⟩, ⟨30, 99⟩⟩ ∧
    selectedRect ⟨100, 100, 0, 0⟩ ⟨-5, 5⟩ ⟨30, 200⟩ ≠ ⟨⟨0, 5⟩, ⟨29, 99⟩⟩ := by
  decide

/-- C2 (as amended): with the label at the origin and of size `w` x `h`, the
rectangle passed to `image.copy` has a first point with non-negative
coordinates; its second point has x at most `w - 1` unless the larger of the two
x coordinates is exactly `w`, and y at most `h - 1` unless the larger of the two
y coordinates is exactly `h`; anchor (-5,5) and release (30,200) on 100x100 give
(0,5)-(30,99). -/
theorem selectedRect_bounds (a b : QPoint) (w h : Int) :
    0 ≤ (selectedRect ⟨w, h, 0, 0⟩ a b).topLeft.x ∧
    0 ≤ (selectedRect ⟨w, h, 0, 0⟩ a b).topLeft.y ∧
    (max a.x b.x ≠ w → (selectedRect ⟨w, h, 0, 0⟩ a b).bottomRight.x ≤ w - 1) ∧
    (max a.y b.y ≠ h → (selectedRect ⟨w, h, 0, 0⟩ a b).bottomRight.y ≤ h - 1) ∧
    selectedRect ⟨100, 100, 0, 0⟩ ⟨-5, 5⟩ ⟨30, 200⟩ = ⟨⟨0, 5⟩, ⟨30, 99⟩⟩ := by
  refine ⟨?_, ?_, ?_, ?_, by decide⟩
  all_goals
    simp only [selectedRect, clampStep, swapStep_eq_min_max]
    split_ifs <;> intros <;> dsimp only at * <;> omega

/-- Witness of `selectedRect_bounds` at anchor (-5,5), release (30,200), 100x100. -/
theorem selectedRect_bounds_witness :
    max (-5 : Int) 30 ≠ 100 ∧ max (5 : Int) 200 ≠ 100 ∧
    (selectedRect ⟨100, 100, 0, 0⟩ ⟨-5, 5⟩ ⟨30, 200⟩).bottomRight.x ≤ 100 - 1 ∧
    (selectedRect ⟨100, 100, 0, 0⟩ ⟨-5, 5⟩ ⟨30, 200⟩).bottomRight.y ≤ 100 - 1 :=
  ⟨by decide, by decide,
    (selectedRect_bounds ⟨-5, 5⟩ ⟨30, 200⟩ 100 100).2.2.1 (by decide),
    (selectedRect_bounds ⟨-5, 5⟩ ⟨30, 200⟩ 100 100).2.2.2.1 (by decide)⟩

/-- The off-by-one of the clamp: a release coordinate equal to the label size is
not pulled back, so on a 100x100 label anchor (0,0) and release (100,100) give
(0,0)-(100,100). -/
theorem selectedRect_at_size :
    selectedRect ⟨100, 100, 0, 0⟩ ⟨0, 0⟩ ⟨100, 100⟩ = ⟨⟨0, 0⟩, ⟨100, 100⟩⟩ := by
  decide

/-! ## Blur slots -/

/-- The loop that starts at `i` and has `k` further iterations below
`MAX_KERNEL_LENGTH` ends with the `dst` of the call for `i + 2 * k`. -/
theorem blurLoop_unroll (call : Int → Mat) (M : Int) (k : Nat) :
    ∀ (i : Int) (dst : Mat), i + 2 * (k : Int) < M → M ≤ i + 2 * (k : Int) + 2 →
      blurLoop call M i dst = call (i + 2 * (k : Int)) := by
  induction k with
  | zero =>
    intro i dst h1 h2
    simp only [Nat.cast_zero, mul_zero, add_zero] at h1 h2 ⊢
    rw [blurLoop, if_pos h1, blurLoop, if_neg (by omega)]
  | succ k ih =>
    intro i dst h1 h2
    push_cast at h1 h2 ⊢
    rw [blurLoop, if_pos (by omega), ih (i + 2) (call i) (by omega) (by omega)]
    congr 1
    ring

/-- Started at 1 with a bound of at least 2, the loop ends with the call for the
largest odd number below the bound. -/
theorem blurLoop_from_one (call : Int → Mat) (m : Int) (dst : Mat) (hm : 2 ≤ m) :
    blurLoop call m 1 dst = call (1 + 2 * ((m - 2) / 2)) := by
  have hk : (((m - 2) / 2).toNat : Int) = (m - 2) / 2 :=
    Int.toNat_of_nonneg (by omega)
  have := blurLoop_unroll call m ((m - 2) / 2).toNat 1 dst (by omega) (by omega)
  rw [this, hk]

/-- The final `dst` of a blur slot for slider value `m`: the call for kernel size
1 when `m < 2`, and otherwise for the largest odd number below `m`. -/
theorem blurLoop_slot (call : Int → Mat) (m : Int) (dst : Mat) :
    blurLoop call (if m < 2 then 2 else m) 1 dst
      = call (if m < 2 then 1 else 1 + 2 * ((m - 2) / 2)) := by
  split_ifs with h
  · rw [blurLoop_from_one call 2 dst (by omega)]; rfl
  · exact blurLoop_from_one call m dst (by omega)

/-- C3 (as stated, refuted): with the recording library, whose blurs answer the
kernel size of the call, the preview of `homogeneousAlgorithm` for slider value 0
comes from the call with kernel size 1, not 3, and for the even slider value 4
from the call with kernel size 3, not 5. -/
theorem blur_kernel_is_below_slider_value :
    (homogeneousAlgorithm recordingLib 0 (setImage recordingLib (some 7) create)).imageAfterEffect
      = some 1 ∧
    (homogeneousAlgorithm recordingLib 0 (setImage recordingLib (some 7) create)).imageAfterEffect
      ≠ some 3 ∧
    (homogeneousAlgorithm recordingLib 4 (setImage recordingLib (some 7) create)).imageAfterEffect
      = some 3 ∧
    (homogeneousAlgorithm recordingLib 4 (setImage recordingLib (some 7) create)).imageAfterEffect
      ≠ some 5 := by
  have h0 : (homogeneousAlgorithm recordingLib 0
      (setImage recordingLib (some 7) create)).imageAfterEffect = some 1 := by
    simp [homogeneousAlgorithm, blurLoop_from_one, recordingLib, changeImage, onDialog]
  have h4 : (homogeneousAlgorithm recordingLib 4
      (setImage recordingLib (some 7) create)).imageAfterEffect = some 3 := by
    simp [homogeneousAlgorithm, blurLoop_from_one, recordingLib, changeImage, onDialog]
  refine ⟨h0, ?_, h4, ?_⟩
  · rw [h0]; decide
  · rw [h4]; decide

/-- C3 (as amended): for each of the four blur slots, the filter call whose
output becomes the preview has kernel size 1 when the slider value `m` is 0 or 1,
and kernel size `m - 1` when `m` is even and at least 2 (for the bilateral filter
the two sigmas follow the kernel size as `2 * k` and `k / 2`). -/
theorem blur_slots_final_kernel (lib : CvLib Img Mat) (m : Int) (v : ImageViewer Img) :
    (m = 0 ∨ m = 1 →
      homogeneousAlgorithm lib m v
        = previewing lib (lib.blur (lib.QImageToCvMat v.image) 1) v ∧
      gaussianAlgorithm lib m v
        = previewing lib (lib.GaussianBlur (lib.QImageToCvMat v.image) 1) v ∧
      medianAlgorithm lib m v
        = previewing lib (lib.medianBlur (lib.QImageToCvMat v.image) 1) v ∧
      bilateralAlgorithm lib m v
        = previewing lib
            (lib.bilateralFilter (lib.QImageToCvMat v.image) 1 (1 * 2) (Int.tdiv 1 2)) v) ∧
    (2 ≤ m → m % 2 = 0 →
      homogeneousAlgorithm lib m v
        = previewing lib (lib.blur (lib.QImageToCvMat v.image) (m - 1)) v ∧
      gaussianAlgorithm lib m v
        = previewing lib (lib.GaussianBlur (lib.QImageToCvMat v.image) (m - 1)) v ∧
      medianAlgorithm lib m v
        = previewing lib (lib.medianBlur (lib.QImageToCvMat v.image) (m - 1)) v ∧
      bilateralAlgorithm lib m v
        = previewing lib
            (lib.bilateralFilter (lib.QImageToCvMat v.image) (m - 1) ((m - 1) * 2)
              (Int.tdiv (m - 1) 2)) v) := by
  constructor
  · intro h
    have e : (if m < 2 then (1 : Int) else 1 + 2 * ((m - 2) / 2)) = 1 := by
      split_ifs <;> omega
    simp only [homogeneousAlgorithm, gaussianAlgorithm, medianAlgorithm, bilateralAlgorithm,
      previewing, blurLoop_slot, e, and_self]
  · intro h2 heven
    have e : (if m < 2 then (1 : Int) else 1 + 2 * ((m - 2) / 2)) = m - 1 := by
      split_ifs <;> omega
    simp only [homogeneousAlgorithm, gaussianAlgorithm, medianAlgorithm, bilateralAlgorithm,
      previewing, blurLoop_slot, e, and_self]

/-- Witness of `blur_slots_final_kernel`: slider value 0 and the even slider
value 4 on the recording library. -/
theorem blur_slots_final_kernel_witness :
    ((0 : Int) = 0 ∨ (0 : Int) = 1) ∧
    homogeneousAlgorithm recordingLib 0 (create : ImageViewer Int)
      = previewing recordingLib (1 : Int) create ∧
    (2 : Int) ≤ 4 ∧ (4 : Int) % 2 = 0 ∧
    homogeneousAlgorithm recordingLib 4 (create : ImageViewer Int)
      = previewing recordingLib (3 : Int) create :=
  ⟨Or.inl rfl,
    ((blur_slots_final_kernel recordingLib 0 create).1 (Or.inl rfl)).1,
    by decide, by decide,
    ((blur_slots_final_kernel recordingLib 4 create).2 (by decide) (by decide)).1⟩

/-! ## Effect dialog protocol -/

/-- C6: `dialogIsFinished(result)` pushes a command exactly when `result` is
`Accepted`. On `Accepted` the history becomes the done commands followed by the
one new command, whose `before` is the committed image and whose `after` is the
working image `imageAfterEffect`, and the cursor advances by one; for every other
result the history and the committed image are unchanged. -/
theorem dialogIsFinished_pushes_iff_accepted (result : Int) (v : ImageViewer Img) :
    (result = Accepted →
      (dialogIsFinished result v).undoStack.commands
        = v.undoStack.commands.take v.undoStack.index
            ++ [{ after := v.imageAfterEffect, before := v.image }] ∧
      (dialogIsFinished result v).undoStack.index = v.undoStack.index + 1) ∧
    (result ≠ Accepted →
      (dialogIsFinished result v).undoStack = v.undoStack ∧
      (dialogIsFinished result v).image = v.image) := by
  constructor
  · intro h
    simp [dialogIsFinished, h, push, redoCommand]
  · intro h
    simp [dialogIsFinished, h, setSliderEnabled, onDialog]

/-- Witness of `dialogIsFinished_pushes_iff_accepted`: a sepia preview on the
recording library, once accepted and once rejected. -/
theorem dialogIsFinished_pushes_iff_accepted_witness :
    (Accepted = Accepted ∧
      (dialogIsFinished Accepted
        (showSepia recordingLib (setImage recordingLib (some 7) create))).undoStack.index
        = (showSepia recordingLib (setImage recordingLib (some 7) create)).undoStack.index + 1) ∧
    (Rejected ≠ Accepted ∧
      (dialogIsFinished Rejected
        (showSepia recordingLib (setImage recordingLib (some 7) create))).undoStack
        = (showSepia recordingLib (setImage recordingLib (some 7) create)).undoStack) :=
  ⟨⟨rfl, ((dialogIsFinished_pushes_iff_accepted Accepted
      (showSepia recordingLib (setImage recordingLib (some 7) create))).1 rfl).2⟩,
    ⟨by decide, ((dialogIsFinished_pushes_iff_accepted Rejected
      (showSepia recordingLib (setImage recordingLib (some 7) create))).2 (by decide)).1⟩⟩

/-- C7 (the code at the failing input): an image is obtained, a sepia preview is
opened and cancelled, then the brightness preview is opened. The dialog shows the
committed image 7, but the working image `imageAfterEffect` is still the sepia
result 1007; accepting at once records a command from 7 to 1007. -/
theorem brightness_preview_keeps_cancelled_sepia :
    (run recordingLib
      [Event.imageObtained 7, Event.sepiaTriggered, Event.effectDialogFinished Rejected,
        Event.brightnessTriggered] create).map
      (fun v => (v.image, v.imageAfterEffect, v.w.map (fun d => d.imageAfter)))
      = some (some 7, some 1007, some (some 7)) ∧
    (run recordingLib
      [Event.imageObtained 7, Event.sepiaTriggered, Event.effectDialogFinished Rejected,
        Event.brightnessTriggered, Event.effectDialogFinished Accepted] create).map
      (fun v => v.undoStack.commands.map (fun c => (c.before, c.after)))
      = some [(some 7, some 1007)] := by
  constructor <;> rfl

/-- C9: for brightness and for each of the four blur slots, the state after the
slot is the state in which one filter result computed from the committed image
`image` and the slider value has become the preview; hence the working image
depends on the committed image and the slider value only (two states with the
same committed image get the same working image, whatever their previous preview
and whatever the dialog holds), running the slot with `p1` and then with `p2`
leaves the same state as running it with `p2` alone, and no slot changes the
committed image. -/
theorem recompute_starts_from_committed (lib : CvLib Img Mat) (p1 p2 : Int)
    (v u : ImageViewer Img) :
    (brightnessAlgorithm lib p2 (brightnessAlgorithm lib p1 v) = brightnessAlgorithm lib p2 v ∧
      homogeneousAlgorithm lib p2 (homogeneousAlgorithm lib p1 v)
        = homogeneousAlgorithm lib p2 v ∧
      gaussianAlgorithm lib p2 (gaussianAlgorithm lib p1 v) = gaussianAlgorithm lib p2 v ∧
      medianAlgorithm lib p2 (medianAlgorithm lib p1 v) = medianAlgorithm lib p2 v ∧
      bilateralAlgorithm lib p2 (bilateralAlgorithm lib p1 v) = bilateralAlgorithm lib p2 v) ∧
    ((brightnessAlgorithm lib p1 v).image = v.image ∧
      (homogeneousAlgorithm lib p1 v).image = v.image ∧
      (gaussianAlgorithm lib p1 v).image = v.image ∧
      (medianAlgorithm lib p1 v).image = v.image ∧
      (bilateralAlgorithm lib p1 v).image = v.image) ∧
    (brightnessAlgorithm lib p2 v
        = previewing lib (lib.brightnessLoop (lib.QImageToCvMat v.image) p2) v ∧
      homogeneousAlgorithm lib p2 v
        = previewing lib (lib.blur (lib.QImageToCvMat v.image)
            (if p2 < 2 then 1 else 1 + 2 * ((p2 - 2) / 2))) v ∧
      gaussianAlgorithm lib p2 v
        = previewing lib (lib.GaussianBlur (lib.QImageToCvMat v.image)
            (if p2 < 2 then 1 else 1 + 2 * ((p2 - 2) / 2))) v ∧
      medianAlgorithm lib p2 v
        = previewing lib (lib.medianBlur (lib.QImageToCvMat v.image)
            (if p2 < 2 then 1 else 1 + 2 * ((p2 - 2) / 2))) v ∧
      bilateralAlgorithm lib p2 v
        = previewing lib (lib.bilateralFilter (lib.QImageToCvMat v.image)
            (if p2 < 2 then 1 else 1 + 2 * ((p2 - 2) / 2))
            ((if p2 < 2 then 1 else 1 + 2 * ((p2 - 2) / 2)) * 2)
            (Int.tdiv (if p2 < 2 then 1 else 1 + 2 * ((p2 - 2) / 2)) 2)) v) ∧
    (u.image = v.image →
      (brightnessAlgorithm lib p2 u).imageAfterEffect
        = (brightnessAlgorithm lib p2 v).imageAfterEffect ∧
      (homogeneousAlgorithm lib p2 u).imageAfterEffect
        = (homogeneousAlgorithm lib p2 v).imageAfterEffect ∧
      (gaussianAlgorithm lib p2 u).imageAfterEffect
        = (gaussianAlgorithm lib p2 v).imageAfterEffect ∧
      (medianAlgorithm lib p2 u).imageAfterEffect
        = (medianAlgorithm lib p2 v).imageAfterEffect ∧
      (bilateralAlgorithm lib p2 u).imageAfterEffect
        = (bilateralAlgorithm lib p2 v).imageAfterEffect) := by
  refine ⟨⟨?_, ?_, ?_, ?_, ?_⟩, ⟨rfl, rfl, rfl, rfl, rfl⟩, ⟨rfl, ?_, ?_, ?_, ?_⟩, ?_⟩
  · simp [brightnessAlgorithm, changeImage, onDialog, Option.map_map, Function.comp_def]
  · simp [homogeneousAlgorithm, changeImage, onDialog, Option.map_map, Function.comp_def]
  · simp [gaussianAlgorithm, changeImage, onDialog, Option.map_map, Function.comp_def]
  · simp [medianAlgorithm, changeImage, onDialog, Option.map_map, Function.comp_def]
  · simp [bilateralAlgorithm, changeImage, onDialog, Option.map_map, Function.comp_def]
  · simp only [homogeneousAlgorithm, previewing, blurLoop_slot]
  · simp only [gaussianAlgorithm, previewing, blurLoop_slot]
  · simp only [medianAlgorithm, previewing, blurLoop_slot]
  · simp only [bilateralAlgorithm, previewing,
      blurLoop_slot (fun i => lib.bilateralFilter (lib.QImageToCvMat v.image) i (i * 2)
        (Int.tdiv i 2))]
  · intro h
    simp only [brightnessAlgorithm, homogeneousAlgorithm, gaussianAlgorithm, medianAlgorithm,
      bilateralAlgorithm, changeImage, onDialog, h, and_self]

/-- Witness of `recompute_starts_from_committed`: a freshly loaded image 7, and
the same image with a sepia preview open (working image and dialog hold 1007);
brightness with slider value 5 gives the working image 12 in both. -/
theorem recompute_starts_from_committed_witness :
    (showSepia recordingLib (setImage recordingLib (some 7) create)).image
      = (setImage recordingLib (some 7) create).image ∧
    (showSepia recordingLib (setImage recordingLib (some 7) create)).imageAfterEffect
      ≠ (setImage recordingLib (some 7) create).imageAfterEffect ∧
    (brightnessAlgorithm recordingLib 5
        (showSepia recordingLib (setImage recordingLib (some 7) create))).imageAfterEffect
      = (brightnessAlgorithm recordingLib 5
        (setImage recordingLib (some 7) create)).imageAfterEffect :=
  ⟨rfl, by decide,
    ((recompute_starts_from_committed recordingLib 0 5
      (setImage recordingLib (some 7) create)
      (showSepia recordingLib (setImage recordingLib (some 7) create))).2.2.2 rfl).1⟩

/-- What an accepted preview leaves of the slider rests on the accepted command.
With the command as modelled here (it only replaces the committed image), a
brightness preview opened after an accepted sepia preview has its slider still
disabled, since `dialogIsFinished` returns before `w->slider->setEnabled(true)`;
had the command reloaded its image through `setImage`, the dialog would be a new
one with the slider enabled. After a rejected sepia preview the slider is
enabled. -/
theorem slider_after_accept_rests_on_command :
    (run recordingLib
      [Event.imageObtained 7, Event.sepiaTriggered, Event.effectDialogFinished Accepted,
        Event.brightnessTriggered] create).map
      (fun v => v.w.map (fun d => (d.visible, d.sliderEnabled)))
      = some (some (true, false)) ∧
    (showBrightnessEffect (setImage recordingLib (some 1007)
        (showSepia recordingLib (setImage recordingLib (some 7) create)))).w.map
      (fun d => (d.visible, d.sliderEnabled))
      = some (true, true) ∧
    (run recordingLib
      [Event.imageObtained 7, Event.sepiaTriggered, Event.effectDialogFinished Rejected,
        Event.brightnessTriggered] create).map
      (fun v => v.w.map (fun d => (d.visible, d.sliderEnabled)))
      = some (some (true, true)) := by
  refine ⟨rfl, rfl, rfl⟩

/-! ## Undo history -/

/-- The slots connected to the slider leave the committed image and the undo
stack alone. -/
theorem runSlot_keeps_history (lib : CvLib Img Mat) (value : Int) (v : ImageViewer Img)
    (slot : SliderSlot) :
    (runSlot lib value v slot).image = v.image ∧
    (runSlot lib value v slot).undoStack = v.undoStack := by
  cases slot <;> exact ⟨rfl, rfl⟩

/-- Running a list of slider slots leaves the committed image and the undo stack
alone. -/
theorem foldl_runSlot_keeps_history (lib : CvLib Img Mat) (value : Int)
    (slots : List SliderSlot) :
    ∀ v : ImageViewer Img,
      (slots.foldl (runSlot lib value) v).image = v.image ∧
      (slots.foldl (runSlot lib value) v).undoStack = v.undoStack := by
  induction slots with
  | nil => intro v; exact ⟨rfl, rfl⟩
  | cons slot rest ih =>
    intro v
    obtain ⟨h1, h2⟩ := ih (runSlot lib value v slot)
    obtain ⟨h3, h4⟩ := runSlot_keeps_history lib value v slot
    exact ⟨by rw [List.foldl_cons, h1, h3], by rw [List.foldl_cons, h2, h4]⟩

/-- The slot `updateActions` leaves the committed image and the undo stack alone. -/
theorem updateActions_keeps_history (v : ImageViewer Img) :
    (updateActions v).image = v.image ∧ (updateActions v).undoStack = v.undoStack :=
  ⟨rfl, rfl⟩

/-- An event other than loading, undo and redo either leaves the committed image
and the undo stack alone or is the push of `dialogIsFinished`. -/
theorem fire_edit_history (lib : CvLib Img Mat) (v : ImageViewer Img) (e : Event Img)
    (he : e.isEdit = true) :
    ((fire lib v e).image = v.image ∧ (fire lib v e).undoStack = v.undoStack) ∨
    ((fire lib v e).image = v.imageAfterEffect ∧
      (fire lib v e).undoStack.commands
        = v.undoStack.commands.take v.undoStack.index
            ++ [{ after := v.imageAfterEffect, before := v.image }] ∧
      (fire lib v e).undoStack.index = v.undoStack.index + 1) := by
  cases e with
  | imageObtained newImage => simp [Event.isEdit] at he
  | undoTriggered => simp [Event.isEdit] at he
  | redoTriggered => simp [Event.isEdit] at he
  | fitToWindowTriggered =>
    left
    simp only [fire, fitToWindow]
    split_ifs <;> exact ⟨rfl, rfl⟩
  | sliderMoved value =>
    left
    simp only [fire, valueChanged]
    cases hw : v.w with
    | none => exact ⟨rfl, rfl⟩
    | some d => exact foldl_runSlot_keeps_history lib value d.sliderSlots v
  | effectDialogFinished result =>
    by_cases h : result = Accepted
    · right
      simp [fire, dialogIsFinished, h, push, redoCommand, onDialog]
    · left
      simp [fire, dialogIsFinished, h, setSliderEnabled, onDialog]
  | otherDialogFinished result =>
    by_cases h : result = Accepted
    · right
      simp [fire, dialogIsFinished, h, push, redoCommand]
    · left
      simp [fire, dialogIsFinished, h, setSliderEnabled, onDialog]
  | _ => left; exact ⟨rfl, rfl⟩

/-- In an editing session every command is done, and the committed image is the
`after` of the last one. -/
theorem editSession_invariant (lib : CvLib Img Mat) (v : ImageViewer Img)
    (hs : EditSession lib v) :
    v.undoStack.index = v.undoStack.commands.length ∧
    ∀ c, v.undoStack.commands[v.undoStack.index - 1]? = some c →
      0 < v.undoStack.index → c.after = v.image := by
  induction hs with
  | start newImage =>
    constructor
    · rfl
    · intro c _ h
      exact absurd h (Nat.lt_irrefl 0)
  | @step v e _ _ he ih =>
    obtain ⟨hidx, hlast⟩ := ih
    rcases fire_edit_history lib v e he with ⟨h1, h2⟩ | ⟨h1, h2, h3⟩
    · rw [h1, h2]
      exact ⟨hidx, hlast⟩
    · rw [h1, h2, h3, hidx, List.take_length]
      refine ⟨by simp, ?_⟩
      intro c hc _
      rw [Nat.add_sub_cancel, List.getElem?_concat_length] at hc
      cases hc
      rfl

/-- C5: in an editing session (an image was obtained, then previews were opened,
adjusted, accepted and cancelled) that has at least one command done, `undo`
moves the cursor back by one, and `redo` after it restores the committed image
and the cursor; indeed the whole viewer state. -/
theorem undo_redo_round_trip (lib : CvLib Img Mat) (v : ImageViewer Img)
    (hs : EditSession lib v) (hdone : 0 < v.undoStack.index) :
    (undo v).undoStack.index + 1 = v.undoStack.index ∧
    (redo (undo v)).image = v.image ∧
    (redo (undo v)).undoStack.index = v.undoStack.index ∧
    redo (undo v) = v := by
  obtain ⟨hidx, hlast⟩ := editSession_invariant lib v hs
  have hlt : v.undoStack.index - 1 < v.undoStack.commands.length := by omega
  have hget : v.undoStack.commands[v.undoStack.index - 1]?
      = some (v.undoStack.commands[v.undoStack.index - 1]) :=
    List.getElem?_eq_getElem hlt
  have hafter := hlast _ hget hdone
  have hne : v.undoStack.index ≠ 0 := by omega
  have hundo : undo v = undoCommand (v.undoStack.commands[v.undoStack.index - 1])
      { v with undoStack := { v.undoStack with index := v.undoStack.index - 1 } } := by
    simp only [undo, if_neg hne, hget]
  have hredo : redo (undo v) = v := by
    rw [hundo]
    simp only [redo, undoCommand, hget, redoCommand, hafter]
    have : v.undoStack.index - 1 + 1 = v.undoStack.index := by omega
    rw [this]
  refine ⟨?_, by rw [hredo], by rw [hredo], hredo⟩
  rw [hundo]
  simp only [undoCommand]
  omega

/-- Witness of `undo_redo_round_trip`: an accepted sepia edit on the recording
library. -/
theorem undo_redo_round_trip_witness :
    (0 < (fire recordingLib (fire recordingLib (setImage recordingLib (some 7) create)
        Event.sepiaTriggered) (Event.effectDialogFinished Accepted)).undoStack.index) ∧
    redo (undo (fire recordingLib (fire recordingLib (setImage recordingLib (some 7) create)
        Event.sepiaTriggered) (Event.effectDialogFinished Accepted)))
      = fire recordingLib (fire recordingLib (setImage recordingLib (some 7) create)
        Event.sepiaTriggered) (Event.effectDialogFinished Accepted) :=
  ⟨Nat.succ_pos 0,
    (undo_redo_round_trip recordingLib _
      (EditSession.step (Event.effectDialogFinished Accepted)
        (EditSession.step Event.sepiaTriggered (EditSession.start 7) rfl rfl) rfl rfl)
      (Nat.succ_pos 0)).2.2.2⟩

/-! ## Action enablement -/

/-- The slots connected to the slider do not touch the action view. -/
theorem runSlot_actionView (lib : CvLib Img Mat) (value : Int) (v : ImageViewer Img)
    (slot : SliderSlot) : actionView (runSlot lib value v slot) = actionView v := by
  cases slot <;>
    simp [actionView, runSlot, brightnessAlgorithm, homogeneousAlgorithm, gaussianAlgorithm,
      medianAlgorithm, bilateralAlgorithm, changeImage, onDialog]

/-- Running a list of slider slots does not touch the action view. -/
theorem foldl_runSlot_actionView (lib : CvLib Img Mat) (value : Int)
    (slots : List SliderSlot) :
    ∀ v : ImageViewer Img, actionView (slots.foldl (runSlot lib value) v) = actionView v := by
  induction slots with
  | nil => intro v; rfl
  | cons slot rest ih =>
    intro v
    rw [List.foldl_cons, ih, runSlot_actionView]

/-- A state reached through the slots of `imageviewer.cpp` is a reachable state
of the viewer. -/
theorem reachableInSource_reachable (lib : CvLib Img Mat) (v : ImageViewer Img)
    (hr : ReachableInSource lib v) : Reachable lib v := by
  induction hr with
  | create => exact Reachable.create
  | @step v e _ hacc _ ih => exact Reachable.step e ih hacc

/-- A list of events that runs from a reachable state ends in a reachable
state. -/
theorem run_reachable (lib : CvLib Img Mat) :
    ∀ (es : List (Event Img)) (v u : ImageViewer Img), Reachable lib v →
      run lib es v = some u → Reachable lib u := by
  intro es
  induction es with
  | nil =>
    intro v u hv hrun
    simp only [run, Option.some.injEq] at hrun
    exact hrun ▸ hv
  | cons e rest ih =>
    intro v u hv hrun
    simp only [run] at hrun
    split_ifs at hrun with hacc
    exact ih (fire lib v e) u (Reachable.step e hv hacc) hrun

/-- After `updateActions`, with at most one of the two modes checked, each mode
is enabled exactly while the other is unchecked. -/
theorem updateActions_modesExclusive (v : ImageViewer Img)
    (h : ¬ (v.cropAct.checked = true ∧ v.fitToWindowAct.checked = true)) :
    ModesExclusive (updateActions v) := by
  simp only [ModesExclusive, updateActions, QAction.setEnabled]
  cases hc : v.cropAct.checked <;> cases hf : v.fitToWindowAct.checked <;>
    simp_all

/-- Only loading an image, Crop Mode and Fit to Window touch the two checkable
actions. -/
theorem fire_modeView (lib : CvLib Img Mat) (v : ImageViewer Img) (e : Event Img) :
    modeView (fire lib v e) = modeView v ∨
    e = Event.cropTriggered ∨ e = Event.fitToWindowTriggered ∨
    ∃ newImage, e = Event.imageObtained newImage := by
  cases e with
  | imageObtained newImage => exact Or.inr (Or.inr (Or.inr ⟨newImage, rfl⟩))
  | cropTriggered => exact Or.inr (Or.inl rfl)
  | fitToWindowTriggered => exact Or.inr (Or.inr (Or.inl rfl))
  | sliderMoved value =>
    left
    simp only [fire, valueChanged]
    split
    · next d _ =>
      have h := foldl_runSlot_actionView lib value d.sliderSlots v
      simp only [actionView, Prod.mk.injEq, List.cons.injEq] at h
      simp only [modeView, h.2.2.2.2.2.2.2.2.2.2.2.2.2.2.2.1, h.2.2.2.2.2.2.2.2.2.2.2.2.2.2.2.2.1]
    · rfl
  | effectDialogFinished result =>
    left
    simp only [fire, dialogIsFinished]
    split_ifs <;> rfl
  | otherDialogFinished result =>
    left
    simp only [fire, dialogIsFinished]
    split_ifs <;> rfl
  | undoTriggered =>
    left
    simp only [fire, undo]
    split_ifs
    · rfl
    · split <;> rfl
  | redoTriggered =>
    left
    simp only [fire, redo]
    split <;> rfl
  | _ => left; rfl

/-- Every event keeps Crop Mode and Fit to Window exclusive. -/
theorem fire_keeps_modesExclusive (lib : CvLib Img Mat) (v : ImageViewer Img)
    (e : Event Img) (hinv : ModesExclusive v) (hacc : accepts v e = true) :
    ModesExclusive (fire lib v e) := by
  rcases fire_modeView lib v e with h | rfl | rfl | ⟨newImage, rfl⟩
  · simp only [modeView, Prod.mk.injEq] at h
    simpa only [ModesExclusive, h.1, h.2] using hinv
  · have hf : v.fitToWindowAct.checked = false := hinv.2.1 hacc
    refine updateActions_modesExclusive _ ?_
    intro hboth
    have : v.fitToWindowAct.checked = true := hboth.2
    rw [hf] at this
    cases this
  · have hc : v.cropAct.checked = false := hinv.2.2 hacc
    simp only [fire, fitToWindow]
    refine updateActions_modesExclusive _ ?_
    intro hboth
    have : v.cropAct.checked = true := by
      split_ifs at hboth <;> exact hboth.1
    rw [hc] at this
    cases this
  · exact updateActions_modesExclusive _ hinv.1

/-- C11: in every reachable state of the viewer, so in particular in every state
reached from the constructor by `setImage`, `crop()` and `fitToWindow()` with an
action toggled only while it is enabled, Crop Mode and Fit to Window are not both
checked. -/
theorem crop_and_fit_never_both_checked (lib : CvLib Img Mat) (v : ImageViewer Img)
    (hr : Reachable lib v) :
    ¬ (v.cropAct.checked = true ∧ v.fitToWindowAct.checked = true) := by
  have h : ModesExclusive v := by
    induction hr with
    | create =>
      refine ⟨?_, ?_, ?_⟩
      · intro h; exact Bool.false_ne_true h.1
      · intro h; exact absurd h Bool.false_ne_true
      · intro h; exact absurd h Bool.false_ne_true
    | @step v e _ hacc ih => exact fire_keeps_modesExclusive lib v e ih hacc
  exact h.1

/-- Witness of `crop_and_fit_never_both_checked`: the state after an image is
obtained and Crop Mode is switched on, where Crop Mode is checked and Fit to
Window is disabled. -/
theorem crop_and_fit_never_both_checked_witness :
    Reachable recordingLib
      (fire recordingLib (fire recordingLib (create : ImageViewer Int)
        (Event.imageObtained 7)) Event.cropTriggered) ∧
    (fire recordingLib (fire recordingLib (create : ImageViewer Int)
        (Event.imageObtained 7)) Event.cropTriggered).cropAct.checked = true ∧
    (fire recordingLib (fire recordingLib (create : ImageViewer Int)
        (Event.imageObtained 7)) Event.cropTriggered).fitToWindowAct.enabled = false ∧
    ¬ ((fire recordingLib (fire recordingLib (create : ImageViewer Int)
        (Event.imageObtained 7)) Event.cropTriggered).cropAct.checked = true ∧
      (fire recordingLib (fire recordingLib (create : ImageViewer Int)
        (Event.imageObtained 7)) Event.cropTriggered).fitToWindowAct.checked = true) :=
  ⟨Reachable.step Event.cropTriggered
      (Reachable.step (Event.imageObtained 7) Reachable.create rfl) rfl,
    rfl, rfl,
    crop_and_fit_never_both_checked recordingLib
      (fire recordingLib (fire recordingLib (create : ImageViewer Int)
        (Event.imageObtained 7)) Event.cropTriggered)
      (Reachable.step Event.cropTriggered
        (Reachable.step (Event.imageObtained 7) Reachable.create rfl) rfl)⟩

/-! ## Zoom level -/

/-- C12 (the code at the failing input): an image is obtained and Zoom In is
triggered five times, which brings the scale factor to 3125/1024 and disables
Zoom In; Crop Mode is switched on and off, and `updateActions` enables Zoom In
again; one more Zoom In gives 15625/4096, above 3.75. In the same way five Zoom
Out steps, Crop Mode on and off and one more Zoom Out give 4096/15625, below
0.2664. -/
theorem zoom_leaves_bounds_after_crop_toggle :
    (∃ v : ImageViewer Int,
      run recordingLib
        (Event.imageObtained 7 :: List.replicate 5 Event.zoomInTriggered
          ++ [Event.cropTriggered, Event.cropTriggered, Event.zoomInTriggered]) create
        = some v ∧
      Reachable recordingLib v ∧ v.scaleFactor = 15625 / 4096 ∧ 15 / 4 < v.scaleFactor) ∧
    (∃ v : ImageViewer Int,
      run recordingLib
        (Event.imageObtained 7 :: List.replicate 5 Event.zoomOutTriggered
          ++ [Event.cropTriggered, Event.cropTriggered, Event.zoomOutTriggered]) create
        = some v ∧
      Reachable recordingLib v ∧ v.scaleFactor = 4096 / 15625 ∧ v.scaleFactor < 333 / 1250) := by
  have hin : (run recordingLib
      (Event.imageObtained 7 :: List.replicate 5 Event.zoomInTriggered
        ++ [Event.cropTriggered, Event.cropTriggered, Event.zoomInTriggered]) create).map
      (fun v => v.scaleFactor) = some (15625 / 4096) := by
    norm_num [run, accepts, fire, zoomIn, scaleImage, setImage, updateActions, create, crop,
      QAction.setEnabled, QAction.toggle, List.replicate, effectwindow.create, recordingLib]
  have hout : (run recordingLib
      (Event.imageObtained 7 :: List.replicate 5 Event.zoomOutTriggered
        ++ [Event.cropTriggered, Event.cropTriggered, Event.zoomOutTriggered]) create).map
      (fun v => v.scaleFactor) = some (4096 / 15625) := by
    norm_num [run, accepts, fire, zoomOut, scaleImage, setImage, updateActions, create, crop,
      QAction.setEnabled, QAction.toggle, List.replicate, effectwindow.create, recordingLib]
  obtain ⟨v1, hrun1, hs1⟩ := Option.map_eq_some'.mp hin
  obtain ⟨v2, hrun2, hs2⟩ := Option.map_eq_some'.mp hout
  refine ⟨⟨v1, hrun1, run_reachable recordingLib _ create v1 Reachable.create hrun1, hs1, ?_⟩,
    ⟨v2, hrun2, run_reachable recordingLib _ create v2 Reachable.create hrun2, hs2, ?_⟩⟩
  · rw [hs1]; norm_num
  · rw [hs2]; norm_num

/-- The slots connected to the slider do not touch the zoom view. -/
theorem foldl_runSlot_zoomView (lib : CvLib Img Mat) (value : Int)
    (slots : List SliderSlot) :
    ∀ v : ImageViewer Img, zoomView (slots.foldl (runSlot lib value) v) = zoomView v := by
  induction slots with
  | nil => intro v; rfl
  | cons slot rest ih =>
    intro v
    rw [List.foldl_cons, ih]
    cases slot <;> rfl

/-- Only loading an image, the zoom actions, Normal Size, Fit to Window and Crop
Mode touch the scale factor or the Zoom In and Zoom Out actions. -/
theorem fire_zoomView (lib : CvLib Img Mat) (v : ImageViewer Img) (e : Event Img) :
    zoomView (fire lib v e) = zoomView v ∨
    e = Event.cropTriggered ∨ e = Event.fitToWindowTriggered ∨
    e = Event.zoomInTriggered ∨ e = Event.zoomOutTriggered ∨
    e = Event.normalSizeTriggered ∨ ∃ newImage, e = Event.imageObtained newImage := by
  cases e with
  | imageObtained newImage => exact Or.inr (Or.inr (Or.inr (Or.inr (Or.inr (Or.inr ⟨newImage, rfl⟩)))))
  | cropTriggered => exact Or.inr (Or.inl rfl)
  | fitToWindowTriggered => exact Or.inr (Or.inr (Or.inl rfl))
  | zoomInTriggered => exact Or.inr (Or.inr (Or.inr (Or.inl rfl)))
  | zoomOutTriggered => exact Or.inr (Or.inr (Or.inr (Or.inr (Or.inl rfl))))
  | normalSizeTriggered => exact Or.inr (Or.inr (Or.inr (Or.inr (Or.inr (Or.inl rfl)))))
  | sliderMoved value =>
    left
    simp only [fire, valueChanged]
    split
    · next d _ => exact foldl_runSlot_zoomView lib value d.sliderSlots v
    · rfl
  | effectDialogFinished result =>
    left
    simp only [fire, dialogIsFinished]
    split_ifs <;> rfl
  | otherDialogFinished result =>
    left
    simp only [fire, dialogIsFinished]
    split_ifs <;> rfl
  | undoTriggered =>
    left
    simp only [fire, undo]
    split_ifs
    · rfl
    · split <;> rfl
  | redoTriggered =>
    left
    simp only [fire, redo]
    split <;> rfl
  | _ => left; rfl

/-- At scale factor 1 the zoom level is within bounds, whatever the flags. -/
theorem zoomBounded_of_scale_one (v : ImageViewer Img) (h : v.scaleFactor = 1) :
    ZoomBounded v := by
  simp only [ZoomBounded, h]
  norm_num

/-- Every event other than Crop Mode keeps the zoom level within bounds. -/
theorem fire_keeps_zoomBounded (lib : CvLib Img Mat) (v : ImageViewer Img) (e : Event Img)
    (hinv : ZoomBounded v) (hacc : accepts v e = true) (hcrop : e ≠ Event.cropTriggered) :
    ZoomBounded (fire lib v e) := by
  rcases fire_zoomView lib v e with h | rfl | rfl | rfl | rfl | rfl | ⟨newImage, rfl⟩
  · simp only [zoomView, Prod.mk.injEq] at h
    simpa only [ZoomBounded, h.1, h.2.1, h.2.2] using hinv
  · exact absurd rfl hcrop
  · simp only [fire, fitToWindow, QAction.toggle]
    cases hf : v.fitToWindowAct.checked with
    | true => exact zoomBounded_of_scale_one _ rfl
    | false =>
      refine ⟨hinv.1, ?_, ?_⟩ <;>
        simp [updateActions, QAction.setEnabled, hf]
  · have hlt : v.scaleFactor < 3 := hinv.2.1 hacc
    obtain ⟨⟨hlo, _⟩, _, _⟩ := hinv
    simp only [ZoomBounded, fire, zoomIn, scaleImage, QAction.setEnabled, decide_eq_true_eq]
    refine ⟨⟨?_, ?_⟩, id, id⟩ <;> linarith
  · have hgt : 333 / 1000 < v.scaleFactor := hinv.2.2 hacc
    obtain ⟨⟨_, hhi⟩, _, _⟩ := hinv
    simp only [ZoomBounded, fire, zoomOut, scaleImage, QAction.setEnabled, decide_eq_true_eq]
    refine ⟨⟨?_, ?_⟩, id, id⟩ <;> linarith
  · exact zoomBounded_of_scale_one _ rfl
  · exact zoomBounded_of_scale_one _ rfl

/-- Without Crop Mode the zoom level is bounded: in every state reached without
triggering Crop Mode the scale factor lies strictly between 0.2664 and 3.75. -/
theorem zoom_bounded_without_crop (lib : CvLib Img Mat) (v : ImageViewer Img)
    (hr : ReachableWithoutCrop lib v) :
    333 / 1250 < v.scaleFactor ∧ v.scaleFactor < 15 / 4 := by
  have h : ZoomBounded v := by
    induction hr with
    | create => exact zoomBounded_of_scale_one _ rfl
    | @step v e _ hacc hcrop ih => exact fire_keeps_zoomBounded lib v e ih hacc hcrop
  exact h.1

end Properties

end ImageEditor
